import Mathlib

/-
Verification of the configuration-resolution and callback-assembly layer of
the catalyst repository (ConfigExperiment, ComponentRegistry, and the metrics
package namespace), as a shallow embedding in Lean 4.

The repository slice under examination consists of the unit test
catalyst/dl/experiment/tests/test_config.py and the re-export module
catalyst/utils/metrics/init.  The implementation of ConfigExperiment and of
the registry (catalyst/dl/experiment/config.py, catalyst/dl/registry) is not
part of the slice, so those components are modelled from the specification
document, faithful to its wording; the test file fixes the concrete
configurations and expected outcomes used as witnesses below.
-/

namespace Catalyst

/-- Primitive configuration values (the leaves of the nested config mapping). -/
inductive PVal
| s (v : String)
| i (v : Int)
deriving DecidableEq, Repr

/-- An ordered string-keyed mapping of primitive values (a flat Python dict). -/
abbrev Params := List (String × PVal)

/-- Error taxonomy of the configuration layer, as enumerated by the spec
(MissingConfigError, UnknownStageError, UnknownComponentError,
UnknownCallbackError, DuplicateNameError, NotImplementedError-equivalent), plus
a clear failure for a scheduler that requires an optimizer that is missing and
a generic construction failure that registries must propagate unchanged. -/
inductive CfgError
| MissingConfigError
| UnknownStageError
| UnknownComponentError
| UnknownCallbackError
| DuplicateNameError
| NotImplementedError
| MissingOptimizerError
| ConstructionError (msg : String)
deriving DecidableEq, Repr

/-- Modelled from the spec: the process-wide ComponentRegistry (its
implementation is not under src/), one category: a mapping from string name to
constructible entry, with unique names. -/
structure Registry (α : Type) where
  entries : List (String × α)

/-- Modelled from the spec: register(category, name, constructor) fails with
DuplicateNameError if the name is already registered in the category;
otherwise the only effect is adding the one new mapping entry. -/
def Registry.register (r : Registry α) (name : String) (ctor : α) :
    Except CfgError (Registry α) :=
  if (r.entries.lookup name).isSome then .error .DuplicateNameError
  else .ok ⟨r.entries ++ [(name, ctor)]⟩

/-- Modelled from the spec: resolve(category, name, kwargs) fails with
UnknownComponentError if the name is absent, otherwise constructs and returns
an instance via constructor(kwargs), propagating any construction error
unchanged. -/
def Registry.resolve (r : Registry (Params → Except CfgError ι)) (name : String)
    (kwargs : Params) : Except CfgError ι :=
  match r.entries.lookup name with
  | none => .error .UnknownComponentError
  | some ctor => ctor kwargs

/-- A resolved model instance, recording the registry name and kwargs used. -/
structure ModelInst where
  name : String
  kwargs : Params
deriving DecidableEq, Repr

/-- A resolved criterion (loss) instance. -/
structure CriterionInst where
  name : String
  kwargs : Params
deriving DecidableEq, Repr

/-- A resolved optimizer instance, bound to the model it optimizes. -/
structure OptimizerInst where
  name : String
  boundModel : ModelInst
  kwargs : Params
deriving DecidableEq, Repr

/-- A resolved scheduler instance, bound to the (possibly absent) optimizer it
was given. -/
structure SchedulerInst where
  name : String
  boundOptimizer : Option OptimizerInst
  kwargs : Params
deriving DecidableEq, Repr

/-- Modelled from the spec: a registered scheduler type; the spec states a
scheduler may or may not require an optimizer, and resolution must fail
clearly when a required optimizer is missing. -/
structure SchedulerCtor where
  requiresOptimizer : Bool
deriving DecidableEq, Repr

/-- The kind tag of a callback (the test compares callbacks by their class). -/
inductive CallbackKind
| MetricManagerCallback
| ValidationManagerCallback
| CheckpointCallback
| ConsoleLogger
| TensorboardLogger
| ExceptionCallback
| CriterionCallback
| OptimizerCallback
| SchedulerCallback
deriving DecidableEq, Repr

/-- Modelled from the spec: the registries consulted by ConfigExperiment, one
per category. Model, criterion and optimizer entries are factories that may
fail; scheduler entries record whether an optimizer is required; callback
entries map a callback class name to its kind. -/
structure Registries where
  models : Registry (Params → Except CfgError ModelInst)
  criteria : Registry (Params → Except CfgError CriterionInst)
  optimizers : Registry (ModelInst → Params → Except CfgError OptimizerInst)
  schedulers : Registry SchedulerCtor
  callbacks : Registry CallbackKind

/-- A component parameter block such as criterion_params: the component name
(the value under the criterion/optimizer/scheduler/model key) plus remaining
kwargs. -/
structure ParamsBlock where
  name : String
  kwargs : Params := []
deriving DecidableEq, Repr

/-- A user callback declaration under callbacks_params: the callback class
name plus kwargs. -/
structure CallbackDecl where
  callback : String
  kwargs : Params := []
deriving DecidableEq, Repr

/-- A per-stage configuration: the optional component parameter blocks, the
user-declared callbacks, and plain stage-level parameter overrides. -/
structure StageConfig where
  data_params : Option Params := none
  criterion_params : Option ParamsBlock := none
  optimizer_params : Option ParamsBlock := none
  scheduler_params : Option ParamsBlock := none
  callbacks_params : List (String × CallbackDecl) := []
  stage_params : Params := []
deriving DecidableEq, Repr

/-- A value stored in the top-level stages mapping: reserved keys carry
parameter blocks shared by every stage, other keys carry stage configurations
(the key string, not the value shape, decides which keys count as stages). -/
inductive StageEntryVal
| dataParams (p : Params)
| paramsBlock (p : ParamsBlock)
| callbacks (p : List (String × CallbackDecl))
| stageCfg (c : StageConfig)
deriving DecidableEq, Repr

/-- The nested configuration consumed by ConfigExperiment: required top-level
keys model_params, stages and args. -/
structure Config where
  model_params : ParamsBlock
  stagesDict : List (String × StageEntryVal)
  args : Params
  distributed_params : Params := []
deriving DecidableEq, Repr

/-- The reserved per-stage sub-keys that are not stage names. -/
def reservedStageKeys : List String :=
  ["data_params", "criterion_params", "optimizer_params", "scheduler_params",
   "callbacks_params"]

/-- Modelled from the spec: the stages accessor returns the ordered keys of
the top-level stages mapping excluding the reserved keys. -/
def Config.stages (c : Config) : List String :=
  (c.stagesDict.map Prod.fst).filter (fun k => !(reservedStageKeys.contains k))

/-- The parameter block stored at a reserved key of the stages mapping, shared
by every stage, when present with the expected shape. -/
def sharedParamsBlock (d : List (String × StageEntryVal)) (key : String) :
    Option ParamsBlock :=
  match d.lookup key with
  | some (.paramsBlock p) => some p
  | _ => none

/-- The user callback declarations stored at the reserved callbacks_params key
of the stages mapping, shared by every stage. -/
def sharedCallbacks (d : List (String × StageEntryVal)) :
    List (String × CallbackDecl) :=
  match d.lookup "callbacks_params" with
  | some (.callbacks p) => p
  | _ => []

/-- The stage-specific configuration stored under the stage name itself. -/
def stageOwnConfig (d : List (String × StageEntryVal)) (s : String) :
    StageConfig :=
  match d.lookup s with
  | some (.stageCfg c) => c
  | _ => {}

/-- Modelled from the spec: absence of a stage-config key means use the
stage-independent default, so the effective per-stage configuration overlays
the stage-specific entries on the shared ones declared at the stages level. -/
def effectiveStageConfig (d : List (String × StageEntryVal)) (s : String) :
    StageConfig :=
  let own := stageOwnConfig d s
  { data_params := own.data_params.orElse (fun _ =>
      match d.lookup "data_params" with
      | some (.dataParams p) => some p
      | _ => none),
    criterion_params := own.criterion_params.orElse (fun _ =>
      sharedParamsBlock d "criterion_params"),
    optimizer_params := own.optimizer_params.orElse (fun _ =>
      sharedParamsBlock d "optimizer_params"),
    scheduler_params := own.scheduler_params.orElse (fun _ =>
      sharedParamsBlock d "scheduler_params"),
    callbacks_params :=
      if own.callbacks_params.isEmpty then sharedCallbacks d
      else own.callbacks_params,
    stage_params := own.stage_params }

/-- Right-biased merge of two flat parameter mappings: entries of the second
override entries of the first. -/
def mergeParams (base override : Params) : Params :=
  (base.filter fun kv => (override.lookup kv.1).isNone) ++ override

/-- Modelled from the spec: ConfigExperiment consumes a configuration and the
registries to produce per-stage components and callbacks. -/
structure ConfigExperiment where
  registries : Registries
  config : Config

/-- Modelled from the spec: initial_seed is the fixed default 42 unless
overridden by the configuration, returned as an integer. -/
def ConfigExperiment.initial_seed (e : ConfigExperiment) : Int :=
  match e.config.args.lookup "seed" with
  | some (.i n) => n
  | _ => 42

/-- Modelled from the spec: logdir is the value of args.logdir, failing with
MissingConfigError when absent. -/
def ConfigExperiment.logdir (e : ConfigExperiment) : Except CfgError String :=
  match e.config.args.lookup "logdir" with
  | some (.s v) => .ok v
  | _ => .error .MissingConfigError

/-- Modelled from the spec: get_stage_params merges the stage-level parameter
overrides over the top-level args defaults, failing with UnknownStageError for
a stage name not in stages. -/
def ConfigExperiment.get_stage_params (e : ConfigExperiment) (stage : String) :
    Except CfgError Params :=
  if e.config.stages.contains stage then
    .ok (mergeParams e.config.args
      (effectiveStageConfig e.config.stagesDict stage).stage_params)
  else .error .UnknownStageError

/-- Modelled from the spec: built-in criteria (well-known loss names) are
resolvable by name without prior registration. -/
def builtinCriterionNames : List String :=
  ["BCEWithLogitsLoss", "BCELoss", "CrossEntropyLoss", "MSELoss", "L1Loss",
   "NLLLoss"]

/-- Resolution of a criterion parameter block: a registered constructor wins,
otherwise a built-in loss name constructs directly, otherwise the lookup fails
loudly. -/
def resolveCriterion (R : Registries) (pb : ParamsBlock) :
    Except CfgError CriterionInst :=
  match R.criteria.entries.lookup pb.name with
  | some ctor => ctor pb.kwargs
  | none =>
    if builtinCriterionNames.contains pb.name then .ok ⟨pb.name, pb.kwargs⟩
    else .error .UnknownComponentError

/-- Modelled from the spec: get_criterion returns the null value when the
stage has no criterion_params, and otherwise resolves the named criterion. -/
def ConfigExperiment.get_criterion (e : ConfigExperiment) (stage : String) :
    Except CfgError (Option CriterionInst) :=
  match (effectiveStageConfig e.config.stagesDict stage).criterion_params with
  | none => .ok none
  | some pb => (resolveCriterion e.registries pb).map some

/-- Modelled from the spec: get_optimizer returns the null value when the
stage has no optimizer_params, and otherwise resolves the named optimizer
bound to the given model. -/
def ConfigExperiment.get_optimizer (e : ConfigExperiment) (stage : String)
    (model : ModelInst) : Except CfgError (Option OptimizerInst) :=
  match (effectiveStageConfig e.config.stagesDict stage).optimizer_params with
  | none => .ok none
  | some pb =>
    match e.registries.optimizers.entries.lookup pb.name with
    | none => .error .UnknownComponentError
    | some ctor => (ctor model pb.kwargs).map some

/-- Modelled from the spec: get_scheduler returns the null value when the
stage has no scheduler_params; otherwise it resolves the named scheduler bound
to the given optimizer, which may be null when the scheduler does not require
one, and fails clearly when a required optimizer is missing. -/
def ConfigExperiment.get_scheduler (e : ConfigExperiment) (stage : String)
    (opt : Option OptimizerInst) : Except CfgError (Option SchedulerInst) :=
  match (effectiveStageConfig e.config.stagesDict stage).scheduler_params with
  | none => .ok none
  | some pb =>
    match e.registries.schedulers.entries.lookup pb.name with
    | none => .error .UnknownComponentError
    | some ctor =>
      if ctor.requiresOptimizer && opt.isNone then .error .MissingOptimizerError
      else .ok (some ⟨pb.name, opt, pb.kwargs⟩)

/-- The fixed ordered always-present default callbacks, keyed by internal
reserved names. -/
def defaultCallbacks : List (String × CallbackKind) :=
  [("_metrics", .MetricManagerCallback),
   ("_validation", .ValidationManagerCallback),
   ("_saver", .CheckpointCallback),
   ("_console", .ConsoleLogger),
   ("_tensorboard", .TensorboardLogger),
   ("_exception", .ExceptionCallback)]

/-- Modelled from the spec: one conditional default callback per component
parameter block present in the stage configuration, keyed by the internal
reserved names. -/
def conditionalDefaults (sc : StageConfig) : List (String × CallbackKind) :=
  (if sc.criterion_params.isSome
   then [("_criterion", CallbackKind.CriterionCallback)] else []) ++
  (if sc.optimizer_params.isSome
   then [("_optimizer", CallbackKind.OptimizerCallback)] else []) ++
  (if sc.scheduler_params.isSome
   then [("_scheduler", CallbackKind.SchedulerCallback)] else [])

/-- The three conditional-default kinds. -/
def conditionalKinds : List CallbackKind :=
  [.CriterionCallback, .OptimizerCallback, .SchedulerCallback]

/-- The internal reserved key of a conditional-default kind. -/
def internalKey : CallbackKind → String
| .CriterionCallback => "_criterion"
| .OptimizerCallback => "_optimizer"
| .SchedulerCallback => "_scheduler"
| _ => ""

/-- The component parameter block of a stage configuration that corresponds to
a conditional-default kind. -/
def condParamOf (sc : StageConfig) : CallbackKind → Option ParamsBlock
| .CriterionCallback => sc.criterion_params
| .OptimizerCallback => sc.optimizer_params
| .SchedulerCallback => sc.scheduler_params
| _ => none

/-- Resolution of the user-declared callbacks: each declared callback class
name is looked up in the callback registry, preserving the user-given names
and the declaration order; an unresolvable name fails with
UnknownCallbackError. -/
def resolveUserCallbacks (R : Registries) :
    List (String × CallbackDecl) →
    Except CfgError (List (String × CallbackKind))
| [] => .ok []
| (n, dcl) :: rest =>
  match R.callbacks.entries.lookup dcl.callback with
  | none => .error .UnknownCallbackError
  | some k => (resolveUserCallbacks R rest).map (fun l => (n, k) :: l)

/-- The assembled callback mapping for resolved user callbacks: always-present
defaults first, then the conditional defaults whose kind no user callback
matches (the suppression rule), then the user callbacks in declaration
order. -/
def assembled (sc : StageConfig) (user : List (String × CallbackKind)) :
    List (String × CallbackKind) :=
  defaultCallbacks ++
  (conditionalDefaults sc).filter
    (fun nk => !((user.map Prod.snd).contains nk.2)) ++
  user

/-- Modelled from the spec: the CallbackAssembler derivation, steps 1 to 5 of
the specification. -/
def assembleCallbacks (R : Registries) (sc : StageConfig) :
    Except CfgError (List (String × CallbackKind)) :=
  match resolveUserCallbacks R sc.callbacks_params with
  | .error er => .error er
  | .ok user => .ok (assembled sc user)

/-- Modelled from the spec: get_callbacks returns the assembled ordered
callback mapping, failing with UnknownStageError for an unknown stage. -/
def ConfigExperiment.get_callbacks (e : ConfigExperiment) (stage : String) :
    Except CfgError (List (String × CallbackKind)) :=
  if e.config.stages.contains stage then
    assembleCallbacks e.registries (effectiveStageConfig e.config.stagesDict stage)
  else .error .UnknownStageError

/-- Modelled from the spec: get_datasets is an extension point whose base
contract fails with the NotImplementedError-equivalent signal. -/
def ConfigExperiment.get_datasets (e : ConfigExperiment) (stage : String) :
    Except CfgError Params :=
  match e, stage with
  | _, _ => .error .NotImplementedError

/-- Modelled from the spec: get_loaders calls get_datasets (per the test
documentation) and is likewise unimplemented in the base contract. -/
def ConfigExperiment.get_loaders (e : ConfigExperiment) (stage : String) :
    Except CfgError Params :=
  match e.get_datasets stage with
  | .error er => .error er
  | .ok ds => .ok ds

/-- The registries populated by the test module: SomeModel, SomeOptimizer and
SomeScheduler are registered at import time (SomeScheduler accepts arbitrary
kwargs, hence requires no optimizer), and the framework callback classes are
resolvable by their class names. -/
def testRegistries : Registries :=
  { models := ⟨[("SomeModel", fun kw => .ok ⟨"SomeModel", kw⟩)]⟩,
    criteria := ⟨[]⟩,
    optimizers := ⟨[("SomeOptimizer", fun m kw => .ok ⟨"SomeOptimizer", m, kw⟩)]⟩,
    schedulers := ⟨[("SomeScheduler", ⟨false⟩)]⟩,
    callbacks := ⟨[("MetricManagerCallback", .MetricManagerCallback),
                   ("ValidationManagerCallback", .ValidationManagerCallback),
                   ("CheckpointCallback", .CheckpointCallback),
                   ("ConsoleLogger", .ConsoleLogger),
                   ("TensorboardLogger", .TensorboardLogger),
                   ("ExceptionCallback", .ExceptionCallback),
                   ("CriterionCallback", .CriterionCallback),
                   ("OptimizerCallback", .OptimizerCallback),
                   ("SchedulerCallback", .SchedulerCallback)]⟩ }

/-- DEFAULT_MINIMAL_CONFIG of the test module. -/
def minimalConfig : Config :=
  { model_params := ⟨"SomeModel", []⟩,
    stagesDict := [("data_params", .dataParams [("num_workers", .i 0)]),
                   ("train", .stageCfg {})],
    args := [("logdir", .s "./logdir")] }

/-- The configuration of test_defaults_criterion_optimizer_scheduler: the
minimal configuration extended with criterion, optimizer and scheduler
parameter blocks at the stages level. -/
def fullConfig : Config :=
  { minimalConfig with
    stagesDict := minimalConfig.stagesDict ++
      [("criterion_params", .paramsBlock ⟨"BCEWithLogitsLoss", []⟩),
       ("optimizer_params", .paramsBlock ⟨"SomeOptimizer", []⟩),
       ("scheduler_params", .paramsBlock ⟨"SomeScheduler", []⟩)] }

/-- The configuration of test_when_callback_defined: fullConfig extended with
user-named callbacks of the three conditional kinds. -/
def userCallbacksConfig : Config :=
  { fullConfig with
    stagesDict := fullConfig.stagesDict ++
      [("callbacks_params", .callbacks
        [("my_criterion", ⟨"CriterionCallback", []⟩),
         ("my_optimizer", ⟨"OptimizerCallback", []⟩),
         ("my_scheduler", ⟨"SchedulerCallback", []⟩)])] }

/-- The experiment built on the minimal configuration. -/
def minimalExp : ConfigExperiment := ⟨testRegistries, minimalConfig⟩

/-- The experiment built on the full configuration. -/
def fullExp : ConfigExperiment := ⟨testRegistries, fullConfig⟩

/-- The experiment built on the configuration with user-named callbacks. -/
def userCallbacksExp : ConfigExperiment := ⟨testRegistries, userCallbacksConfig⟩

/-- Identifiers for the function objects defined by the metric submodules (the
submodule bodies are outside the slice; each exported name is a distinct
object). -/
inductive MetricFn
| accuracyFn
| averageAccuracyFn
| meanAverageAccuracyFn
| diceFn
| f1ScoreFn
| reducedFocalLossFn
| sigmoidFocalLossFn
| hitrateFn
| iouFn
| jaccardFn
deriving DecidableEq, Repr

/-- Modelled from the spec: the submodule catalyst/utils/metrics/accuracy.py
is not under src/; per the package from-imports it defines accuracy,
average_accuracy and mean_average_accuracy. -/
def accuracyModule : List (String × MetricFn) :=
  [("accuracy", .accuracyFn), ("average_accuracy", .averageAccuracyFn),
   ("mean_average_accuracy", .meanAverageAccuracyFn)]

/-- Modelled from the spec: the submodule catalyst/utils/metrics/dice.py is
not under src/; per the package from-imports it defines dice. -/
def diceModule : List (String × MetricFn) := [("dice", .diceFn)]

/-- Modelled from the spec: the submodule catalyst/utils/metrics/f1_score.py
is not under src/; per the package from-imports it defines f1_score. -/
def f1ScoreModule : List (String × MetricFn) := [("f1_score", .f1ScoreFn)]

/-- Modelled from the spec: the submodule catalyst/utils/metrics/focal.py is
not under src/; per the package from-imports it defines reduced_focal_loss and
sigmoid_focal_loss. -/
def focalModule : List (String × MetricFn) :=
  [("reduced_focal_loss", .reducedFocalLossFn),
   ("sigmoid_focal_loss", .sigmoidFocalLossFn)]

/-- Modelled from the spec: the submodule catalyst/utils/metrics/hitrate.py is
not under src/; per the package from-imports it defines hitrate. -/
def hitrateModule : List (String × MetricFn) := [("hitrate", .hitrateFn)]

/-- Modelled from the spec: the submodule catalyst/utils/metrics/iou.py is not
under src/; per the package from-imports it defines iou and jaccard. -/
def iouModule : List (String × MetricFn) :=
  [("iou", .iouFn), ("jaccard", .jaccardFn)]

/-- A from-import statement: each listed name is bound in the importing
namespace to the very object the submodule binds it to. -/
def fromImport (mod : List (String × MetricFn)) (names : List String) :
    List (String × MetricFn) :=
  names.filterMap (fun n => (mod.lookup n).map (fun f => (n, f)))

/-- Embedding of src/catalyst/utils/metrics/init: the six from-import lines in
source order, and nothing else. -/
def metricsNamespace : List (String × MetricFn) :=
  fromImport accuracyModule
    ["accuracy", "average_accuracy", "mean_average_accuracy"] ++
  fromImport diceModule ["dice"] ++
  fromImport f1ScoreModule ["f1_score"] ++
  fromImport focalModule ["reduced_focal_loss", "sigmoid_focal_loss"] ++
  fromImport hitrateModule ["hitrate"] ++
  fromImport iouModule ["iou", "jaccard"]

/-- The ten names the specification says the metrics package exposes. -/
def metricsSpecNames : List String :=
  ["accuracy", "average_accuracy", "mean_average_accuracy", "dice", "f1_score",
   "reduced_focal_loss", "sigmoid_focal_loss", "hitrate", "iou", "jaccard"]

/-- The submodule in which the specification locates each exposed name. -/
def submoduleOf : String → List (String × MetricFn)
| "accuracy" => accuracyModule
| "average_accuracy" => accuracyModule
| "mean_average_accuracy" => accuracyModule
| "dice" => diceModule
| "f1_score" => f1ScoreModule
| "reduced_focal_loss" => focalModule
| "sigmoid_focal_loss" => focalModule
| "hitrate" => hitrateModule
| "iou" => iouModule
| "jaccard" => iouModule
| _ => []

lemma contains_false_of_not_mem {α : Type _} [BEq α] [LawfulBEq α]
    (l : List α) (a : α) (h : a ∉ l) : l.contains a = false := by
  cases hc : l.contains a
  · rfl
  · exact absurd (List.mem_of_elem_eq_true hc) h

lemma contains_true_of_mem {α : Type _} [BEq α] [LawfulBEq α]
    (l : List α) (a : α) (h : a ∈ l) : l.contains a = true :=
  List.elem_eq_true_of_mem h

lemma filter_nonreserved_nil (l : List String)
    (h : ∀ k ∈ l, reservedStageKeys.contains k = true) :
    l.filter (fun k => !(reservedStageKeys.contains k)) = [] := by
  induction l with
  | nil => rfl
  | cons x xs ih =>
    have hx := h x (List.mem_cons_self x xs)
    rw [List.filter_cons]
    simp only [hx, Bool.not_true, Bool.false_eq_true, if_false]
    exact ih (fun k hk => h k (List.mem_cons_of_mem x hk))

lemma filter_single_train (l : List String)
    (h : ∀ k ∈ l, k = "train" ∨ reservedStageKeys.contains k = true)
    (hc : l.count "train" = 1) :
    l.filter (fun k => !(reservedStageKeys.contains k)) = ["train"] := by
  induction l with
  | nil => simp at hc
  | cons x xs ih =>
    rcases h x (List.mem_cons_self x xs) with hx | hx
    · subst hx
      have hcc := List.count_cons_self "train" xs
      have hxs : List.count "train" xs = 0 := by omega
      have hres : ∀ k ∈ xs, reservedStageKeys.contains k = true := by
        intro k hk
        rcases h k (List.mem_cons_of_mem _ hk) with hk2 | hk2
        · exact absurd (hk2 ▸ hk) (List.count_eq_zero.mp hxs)
        · exact hk2
      have hnr : reservedStageKeys.contains "train" = false := by decide
      rw [List.filter_cons]
      simp only [hnr, Bool.not_false, if_true]
      rw [filter_nonreserved_nil xs hres]
    · have hne : x ≠ "train" := by
        intro heq
        rw [heq] at hx
        exact absurd hx (by decide)
      have hc2 : List.count "train" xs = 1 := by
        rw [List.count_cons_of_ne (fun hh => hne hh.symm) xs] at hc
        exact hc
      rw [List.filter_cons]
      simp only [hx, Bool.not_true, Bool.false_eq_true, if_false]
      exact ih (fun k hk => h k (List.mem_cons_of_mem x hk)) hc2

/-- Claim C4: the stages accessor returns the ordered keys of the top-level
stages mapping excluding the reserved per-stage sub-keys; in particular a
configuration whose stages mapping has the single non-reserved key train
(alongside any reserved parameter blocks) yields exactly the stage list
consisting of train. -/
theorem stages_spec (c : Config) :
    (∀ k, k ∈ c.stages ↔
      (k ∈ c.stagesDict.map Prod.fst ∧ reservedStageKeys.contains k = false)) ∧
    c.stages.Sublist (c.stagesDict.map Prod.fst) ∧
    ((∀ k ∈ c.stagesDict.map Prod.fst,
        k = "train" ∨ reservedStageKeys.contains k = true) →
      (c.stagesDict.map Prod.fst).count "train" = 1 →
      c.stages = ["train"]) := by
  refine ⟨?_, ?_, ?_⟩
  · intro k
    unfold Config.stages
    rw [List.mem_filter]
    constructor
    · rintro ⟨hm, hp⟩
      refine ⟨hm, ?_⟩
      cases hcon : reservedStageKeys.contains k
      · rfl
      · rw [hcon] at hp
        simp at hp
    · rintro ⟨hm, hp⟩
      exact ⟨hm, by rw [hp]; rfl⟩
  · exact List.filter_sublist _
  · intro h hc
    exact filter_single_train _ h hc

/-- Witness for claim C4 at the configuration of the test file: only train is
a stage even when criterion, optimizer and scheduler parameter blocks sit at
the same level of the stages mapping. -/
theorem stages_spec_witness : fullConfig.stages = ["train"] :=
  (stages_spec fullConfig).2.2 (by decide) (by decide)

lemma mergeParams_nil (base : Params) : mergeParams base [] = base := by
  unfold mergeParams
  simp [List.lookup]

/-- Claim C5: get_stage_params returns the stage-level parameter overrides
merged over the top-level args defaults for a known stage (hence exactly the
args mapping when the stage declares no overrides), and fails with
UnknownStageError for a stage name not in stages. -/
theorem get_stage_params_spec (e : ConfigExperiment) (stage : String) :
    (e.config.stages.contains stage = true →
      e.get_stage_params stage =
        .ok (mergeParams e.config.args
          (effectiveStageConfig e.config.stagesDict stage).stage_params)) ∧
    (e.config.stages.contains stage = true →
      (effectiveStageConfig e.config.stagesDict stage).stage_params = [] →
      e.get_stage_params stage = .ok e.config.args) ∧
    (e.config.stages.contains stage = false →
      e.get_stage_params stage = .error .UnknownStageError) := by
  refine ⟨?_, ?_, ?_⟩
  · intro h
    have hm : stage ∈ e.config.stages := List.mem_of_elem_eq_true h
    simp [ConfigExperiment.get_stage_params, hm]
  · intro h hnil
    have hm : stage ∈ e.config.stages := List.mem_of_elem_eq_true h
    simp [ConfigExperiment.get_stage_params, hm, hnil, mergeParams_nil]
  · intro h
    have hm : stage ∉ e.config.stages := fun hmem => by
      rw [contains_true_of_mem _ _ hmem] at h
      exact Bool.noConfusion h
    simp [ConfigExperiment.get_stage_params, hm]

/-- Witness for claim C5 at the minimal test configuration: the stage train
yields exactly the logdir mapping of args, and an undeclared stage fails with
UnknownStageError. -/
theorem get_stage_params_spec_witness :
    minimalExp.get_stage_params "train" = .ok [("logdir", PVal.s "./logdir")] ∧
    minimalExp.get_stage_params "infer" = .error .UnknownStageError :=
  ⟨(get_stage_params_spec minimalExp "train").2.1 (by rfl) (by rfl),
   (get_stage_params_spec minimalExp "infer").2.2 (by rfl)⟩

/-- Claim C6: get_scheduler returns the null value when scheduler_params is
absent; otherwise it resolves the named scheduler bound to the given
optimizer, succeeding with a null optimizer when the scheduler does not
require one, and failing clearly (MissingOptimizerError) when a required
optimizer is missing. -/
theorem get_scheduler_spec (e : ConfigExperiment) (stage : String)
    (opt : Option OptimizerInst) (sc : StageConfig)
    (hsc : effectiveStageConfig e.config.stagesDict stage = sc) :
    (sc.scheduler_params = none → e.get_scheduler stage opt = .ok none) ∧
    (∀ pb, sc.scheduler_params = some pb →
      e.registries.schedulers.entries.lookup pb.name = none →
      e.get_scheduler stage opt = .error .UnknownComponentError) ∧
    (∀ pb ctor, sc.scheduler_params = some pb →
      e.registries.schedulers.entries.lookup pb.name = some ctor →
      ((ctor.requiresOptimizer = false →
        e.get_scheduler stage opt = .ok (some ⟨pb.name, opt, pb.kwargs⟩)) ∧
       (ctor.requiresOptimizer = true → opt = none →
        e.get_scheduler stage opt = .error .MissingOptimizerError) ∧
       (∀ o, opt = some o →
        e.get_scheduler stage opt = .ok (some ⟨pb.name, some o, pb.kwargs⟩)))) := by
  refine ⟨?_, ?_, ?_⟩
  · intro h
    simp [ConfigExperiment.get_scheduler, hsc, h]
  · intro pb h hlook
    simp [ConfigExperiment.get_scheduler, hsc, h, hlook]
  · intro pb ctor h hlook
    refine ⟨?_, ?_, ?_⟩
    · intro hreq
      simp [ConfigExperiment.get_scheduler, hsc, h, hlook, hreq]
    · intro hreq hopt
      simp [ConfigExperiment.get_scheduler, hsc, h, hlook, hreq, hopt]
    · intro o hopt
      simp [ConfigExperiment.get_scheduler, hsc, h, hlook, hopt]

/-- Witness for claim C6: on the full test configuration the scheduler
resolves with a null optimizer (SomeScheduler requires none), and on the
minimal configuration (no scheduler_params) the null value is returned. -/
theorem get_scheduler_spec_witness :
    fullExp.get_scheduler "train" none =
      .ok (some ⟨"SomeScheduler", none, []⟩) ∧
    minimalExp.get_scheduler "train" none = .ok none :=
  ⟨((get_scheduler_spec fullExp "train" none
      (effectiveStageConfig fullExp.config.stagesDict "train") rfl).2.2
      ⟨"SomeScheduler", []⟩ ⟨false⟩ (by rfl) (by rfl)).1 (by rfl),
   (get_scheduler_spec minimalExp "train" none
      (effectiveStageConfig minimalExp.config.stagesDict "train") rfl).1 (by rfl)⟩

/-- Claim C7: on the unmodified base ConfigExperiment, get_loaders and
get_datasets fail with the NotImplementedError signal for every stage and
never return a value. -/
theorem loaders_datasets_not_implemented (e : ConfigExperiment) (stage : String) :
    e.get_loaders stage = .error .NotImplementedError ∧
    e.get_datasets stage = .error .NotImplementedError :=
  ⟨rfl, rfl⟩

/-- Claim C8: register fails with DuplicateNameError on an already-registered
name and otherwise only appends the one new entry; resolve fails with
UnknownComponentError on an absent name and otherwise returns exactly the
registered constructor applied to the kwargs, propagating a construction
error unchanged. -/
theorem register_resolve_spec {ι : Type} (r : Registry (Params → Except CfgError ι))
    (name : String) (ctor : Params → Except CfgError ι) (kwargs : Params) :
    ((r.entries.lookup name).isSome = true →
      r.register name ctor = .error .DuplicateNameError) ∧
    (r.entries.lookup name = none →
      r.register name ctor = .ok ⟨r.entries ++ [(name, ctor)]⟩) ∧
    (r.entries.lookup name = none →
      r.resolve name kwargs = .error .UnknownComponentError) ∧
    (∀ c, r.entries.lookup name = some c → r.resolve name kwargs = c kwargs) ∧
    (∀ c er, r.entries.lookup name = some c → c kwargs = .error er →
      r.resolve name kwargs = .error er) := by
  refine ⟨?_, ?_, ?_, ?_, ?_⟩
  · intro h
    simp [Registry.register, h]
  · intro h
    simp [Registry.register, h]
  · intro h
    simp [Registry.resolve, h]
  · intro c h
    simp [Registry.resolve, h]
  · intro c er h herr
    simp [Registry.resolve, h, herr]

/-- A concrete one-entry criterion registry used to instantiate the registry
contract. -/
def regA : Registry (Params → Except CfgError CriterionInst) :=
  ⟨[("A", fun kw => .ok ⟨"A", kw⟩)]⟩

/-- A concrete registry whose single constructor fails, used to instantiate
construction-error propagation. -/
def regF : Registry (Params → Except CfgError CriterionInst) :=
  ⟨[("F", fun _ => .error (.ConstructionError "bad"))]⟩

/-- A fresh constructor used for the duplicate-registration instance. -/
def ctorDup : Params → Except CfgError CriterionInst :=
  fun kw => .ok ⟨"dup", kw⟩

/-- Witness for claim C8 on concrete registries: a duplicate registration
fails, an unknown name fails, a present name resolves to the constructed
instance, and a failing constructor propagates its error unchanged. -/
theorem register_resolve_spec_witness :
    regA.register "A" ctorDup = .error .DuplicateNameError ∧
    regA.resolve "B" [] = .error .UnknownComponentError ∧
    regA.resolve "A" [] = .ok ⟨"A", []⟩ ∧
    regF.resolve "F" [] = .error (.ConstructionError "bad") :=
  ⟨(register_resolve_spec regA "A" ctorDup []).1 (by rfl),
   (register_resolve_spec regA "B" ctorDup []).2.2.1 (by rfl),
   (register_resolve_spec regA "A" ctorDup []).2.2.2.1
     (fun kw => .ok ⟨"A", kw⟩) (by rfl),
   (register_resolve_spec regF "F" ctorDup []).2.2.2.2
     (fun _ => .error (.ConstructionError "bad"))
     (.ConstructionError "bad") (by rfl) (by rfl)⟩

/-- Claim C9: initial_seed returns the integer 42 for every configuration
that does not override the seed. -/
theorem initial_seed_default (e : ConfigExperiment)
    (h : e.config.args.lookup "seed" = none) : e.initial_seed = 42 := by
  simp [ConfigExperiment.initial_seed, h]

/-- Witness for claim C9 at the minimal test configuration. -/
theorem initial_seed_default_witness : minimalExp.initial_seed = 42 :=
  initial_seed_default minimalExp (by rfl)

/-- Claim C10: the metrics package namespace exposes exactly the ten exported
names in source order, each bound to the identical function object its
submodule defines, and adds no binding of its own. -/
theorem metrics_namespace_spec :
    metricsNamespace.map Prod.fst = metricsSpecNames ∧
    (∀ nf ∈ metricsNamespace, (submoduleOf nf.1).lookup nf.1 = some nf.2) := by
  constructor
  · rfl
  · decide

lemma mem_conditionalDefaults (sc : StageConfig) (nk : String × CallbackKind)
    (h : nk ∈ conditionalDefaults sc) :
    nk = ("_criterion", CallbackKind.CriterionCallback) ∨
    nk = ("_optimizer", CallbackKind.OptimizerCallback) ∨
    nk = ("_scheduler", CallbackKind.SchedulerCallback) := by
  unfold conditionalDefaults at h
  rcases List.mem_append.mp h with h | h
  · rcases List.mem_append.mp h with h | h
    · left
      split at h
      · exact List.mem_singleton.mp h
      · simp at h
    · right; left
      split at h
      · exact List.mem_singleton.mp h
      · simp at h
  · right; right
    split at h
    · exact List.mem_singleton.mp h
    · simp at h

/-- Claim C3: with none of the three component parameter blocks present and no
user callbacks declared, the three component resolvers return the null value
and get_callbacks returns exactly the six always-present defaults, each bound
to its kind. -/
theorem minimal_defaults_spec (e : ConfigExperiment) (stage : String)
    (model : ModelInst) (opt : Option OptimizerInst) (sc : StageConfig)
    (hst : e.config.stages.contains stage = true)
    (hsc : effectiveStageConfig e.config.stagesDict stage = sc)
    (h1 : sc.criterion_params = none) (h2 : sc.optimizer_params = none)
    (h3 : sc.scheduler_params = none) (h4 : sc.callbacks_params = []) :
    e.get_criterion stage = .ok none ∧
    e.get_optimizer stage model = .ok none ∧
    e.get_scheduler stage opt = .ok none ∧
    e.get_callbacks stage =
      .ok [("_metrics", .MetricManagerCallback),
           ("_validation", .ValidationManagerCallback),
           ("_saver", .CheckpointCallback),
           ("_console", .ConsoleLogger),
           ("_tensorboard", .TensorboardLogger),
           ("_exception", .ExceptionCallback)] := by
  refine ⟨?_, ?_, ?_, ?_⟩
  · simp [ConfigExperiment.get_criterion, hsc, h1]
  · simp [ConfigExperiment.get_optimizer, hsc, h2]
  · simp [ConfigExperiment.get_scheduler, hsc, h3]
  · simp only [ConfigExperiment.get_callbacks, if_pos hst]
    rw [hsc]
    simp [assembleCallbacks, h4, resolveUserCallbacks, assembled,
      conditionalDefaults, h1, h2, h3, defaultCallbacks]

/-- Witness for claim C3 at the minimal test configuration. -/
theorem minimal_defaults_spec_witness :
    minimalExp.get_criterion "train" = .ok none ∧
    minimalExp.get_optimizer "train" ⟨"SomeModel", []⟩ = .ok none ∧
    minimalExp.get_scheduler "train" none = .ok none ∧
    minimalExp.get_callbacks "train" =
      .ok [("_metrics", .MetricManagerCallback),
           ("_validation", .ValidationManagerCallback),
           ("_saver", .CheckpointCallback),
           ("_console", .ConsoleLogger),
           ("_tensorboard", .TensorboardLogger),
           ("_exception", .ExceptionCallback)] :=
  minimal_defaults_spec minimalExp "train" ⟨"SomeModel", []⟩ none
    (effectiveStageConfig minimalExp.config.stagesDict "train")
    (by rfl) rfl (by rfl) (by rfl) (by rfl) (by rfl)

/-- Claim C2: with all three component parameter blocks present and no user
callback of a conditional kind declared, each component resolver never yields
the null value, and get_callbacks is exactly the always-present defaults, the
three internally-keyed conditional defaults with their kinds, and the user
callbacks. -/
theorem full_params_spec (e : ConfigExperiment) (stage : String)
    (sc : StageConfig) (user : List (String × CallbackKind))
    (hst : e.config.stages.contains stage = true)
    (hsc : effectiveStageConfig e.config.stagesDict stage = sc)
    (h1 : sc.criterion_params.isSome = true)
    (h2 : sc.optimizer_params.isSome = true)
    (h3 : sc.scheduler_params.isSome = true)
    (huser : resolveUserCallbacks e.registries sc.callbacks_params = .ok user)
    (hdisj : ∀ nk ∈ user, ¬ nk.2 ∈ conditionalKinds) :
    (∀ r, e.get_criterion stage = .ok r → r.isSome = true) ∧
    (∀ model r, e.get_optimizer stage model = .ok r → r.isSome = true) ∧
    (∀ opt r, e.get_scheduler stage opt = .ok r → r.isSome = true) ∧
    e.get_callbacks stage =
      .ok (defaultCallbacks ++
        [("_criterion", CallbackKind.CriterionCallback),
         ("_optimizer", CallbackKind.OptimizerCallback),
         ("_scheduler", CallbackKind.SchedulerCallback)] ++ user) := by
  obtain ⟨pb1, hpb1⟩ := Option.isSome_iff_exists.mp h1
  obtain ⟨pb2, hpb2⟩ := Option.isSome_iff_exists.mp h2
  obtain ⟨pb3, hpb3⟩ := Option.isSome_iff_exists.mp h3
  refine ⟨?_, ?_, ?_, ?_⟩
  · intro r hr
    simp only [ConfigExperiment.get_criterion, hsc, hpb1] at hr
    cases hres : resolveCriterion e.registries pb1 with
    | error er => rw [hres] at hr; simp [Except.map] at hr
    | ok ci =>
      rw [hres] at hr
      simp only [Except.map, Except.ok.injEq] at hr
      rw [← hr]
      rfl
  · intro model r hr
    simp only [ConfigExperiment.get_optimizer, hsc, hpb2] at hr
    split at hr
    · simp at hr
    · rename_i ctor heq
      cases hres : ctor model pb2.kwargs with
      | error er => rw [hres] at hr; simp [Except.map] at hr
      | ok oi =>
        rw [hres] at hr
        simp only [Except.map, Except.ok.injEq] at hr
        rw [← hr]
        rfl
  · intro opt r hr
    simp only [ConfigExperiment.get_scheduler, hsc, hpb3] at hr
    split at hr
    · simp at hr
    · rename_i ctor heq
      split at hr
      · simp at hr
      · simp only [Except.ok.injEq] at hr
        rw [← hr]
        rfl
  · have hcd : conditionalDefaults sc =
        [("_criterion", CallbackKind.CriterionCallback),
         ("_optimizer", CallbackKind.OptimizerCallback),
         ("_scheduler", CallbackKind.SchedulerCallback)] := by
      simp [conditionalDefaults, hpb1, hpb2, hpb3]
    have hn : ∀ kk ∈ conditionalKinds, kk ∉ user.map Prod.snd := by
      intro kk hkk hmem
      obtain ⟨nk, hnk, he⟩ := List.mem_map.mp hmem
      exact hdisj nk hnk (he ▸ hkk)
    have m1 := hn .CriterionCallback (by decide)
    have m2 := hn .OptimizerCallback (by decide)
    have m3 := hn .SchedulerCallback (by decide)
    simp only [ConfigExperiment.get_callbacks, if_pos hst]
    rw [hsc]
    simp only [assembleCallbacks, huser]
    unfold assembled
    rw [hcd]
    simp [List.filter_cons, m1, m2, m3]

/-- Witness for claim C2 at the full test configuration: the callback mapping
is the six defaults plus the three conditional defaults, and the criterion
resolver yields the built-in BCEWithLogitsLoss instance, which is non-null. -/
theorem full_params_spec_witness :
    fullExp.get_callbacks "train" =
      .ok (defaultCallbacks ++
        [("_criterion", CallbackKind.CriterionCallback),
         ("_optimizer", CallbackKind.OptimizerCallback),
         ("_scheduler", CallbackKind.SchedulerCallback)] ++ []) ∧
    Option.isSome (some (⟨"BCEWithLogitsLoss", []⟩ : CriterionInst)) = true := by
  have h := full_params_spec fullExp "train"
    (effectiveStageConfig fullExp.config.stagesDict "train") []
    (by rfl) rfl (by rfl) (by rfl) (by rfl) (by rfl) (by simp)
  exact ⟨h.2.2.2, h.1 (some ⟨"BCEWithLogitsLoss", []⟩) (by rfl)⟩

/-- Claim C1 (amended): when a component parameter block of a conditional kind
is present and the user declares a callback of that kind under their own
non-reserved name, the assembled mapping contains the user callback with its
kind, omits the internally-keyed default of that kind, keeps every
always-present default, and for every conditional kind the user declares, the
callbacks of that kind are exactly the user-declared ones (the internal
default adds none). -/
theorem user_callback_suppression (e : ConfigExperiment) (stage : String)
    (sc : StageConfig) (user : List (String × CallbackKind))
    (k : CallbackKind) (uname : String)
    (hst : e.config.stages.contains stage = true)
    (hsc : effectiveStageConfig e.config.stagesDict stage = sc)
    (huser : resolveUserCallbacks e.registries sc.callbacks_params = .ok user)
    (hk : k ∈ conditionalKinds)
    (hp : (condParamOf sc k).isSome = true)
    (hu : (uname, k) ∈ user)
    (hnm : internalKey k ∉ user.map Prod.fst) :
    e.get_callbacks stage = .ok (assembled sc user) ∧
    (uname, k) ∈ assembled sc user ∧
    internalKey k ∉ (assembled sc user).map Prod.fst ∧
    (∀ d ∈ defaultCallbacks, d ∈ assembled sc user) ∧
    (∀ k2, k2 ∈ conditionalKinds → k2 ∈ user.map Prod.snd →
      (assembled sc user).filter (fun nk => nk.2 == k2) =
        user.filter (fun nk => nk.2 == k2)) := by
  have hkuser : k ∈ user.map Prod.snd :=
    List.mem_map.mpr ⟨(uname, k), hu, rfl⟩
  have hkcont : (user.map Prod.snd).contains k = true :=
    contains_true_of_mem _ _ hkuser
  refine ⟨?_, ?_, ?_, ?_, ?_⟩
  · simp only [ConfigExperiment.get_callbacks, if_pos hst]
    rw [hsc]
    simp [assembleCallbacks, huser]
  · exact List.mem_append.mpr (Or.inr hu)
  · intro hmem
    unfold assembled at hmem
    rw [List.map_append, List.map_append] at hmem
    rcases List.mem_append.mp hmem with hmem | hmem
    · rcases List.mem_append.mp hmem with hmem | hmem
      · simp only [conditionalKinds, List.mem_cons, List.mem_singleton,
          List.not_mem_nil, or_false] at hk
        rcases hk with rfl | rfl | rfl <;>
          exact absurd hmem (by decide)
      · obtain ⟨nk, hnkf, hfst⟩ := List.mem_map.mp hmem
        obtain ⟨hnkcond, hq⟩ := List.mem_filter.mp hnkf
        simp only [conditionalKinds, List.mem_cons, List.mem_singleton,
          List.not_mem_nil, or_false] at hk
        rcases hk with rfl | rfl | rfl <;>
          rcases mem_conditionalDefaults sc nk hnkcond with rfl | rfl | rfl <;>
          first
            | (rw [hkcont] at hq; simp at hq)
            | (exact absurd hfst (by decide))
    · exact hnm hmem
  · intro d hd
    exact List.mem_append.mpr (Or.inl (List.mem_append.mpr (Or.inl hd)))
  · intro k2 hk2 hk2u
    have hcont2 : (user.map Prod.snd).contains k2 = true :=
      contains_true_of_mem _ _ hk2u
    unfold assembled
    rw [List.filter_append, List.filter_append]
    have hd0 : defaultCallbacks.filter (fun nk => nk.2 == k2) = [] := by
      simp only [conditionalKinds, List.mem_cons, List.mem_singleton,
        List.not_mem_nil, or_false] at hk2
      rcases hk2 with rfl | rfl | rfl <;> decide
    have hf0 : ((conditionalDefaults sc).filter
        (fun nk => !((user.map Prod.snd).contains nk.2))).filter
        (fun nk => nk.2 == k2) = [] := by
      rw [List.filter_eq_nil_iff]
      intro nk hnk hbeq
      obtain ⟨hc, hq⟩ := List.mem_filter.mp hnk
      have hnk2 : nk.2 = k2 := by simpa using hbeq
      rw [hnk2, hcont2] at hq
      simp at hq
    rw [hd0, hf0]
    simp

/-- Witness for claim C1 on the user-callback test configuration: the
user-named criterion callback appears with its kind, the internally-keyed
criterion default does not, and get_callbacks returns the assembled list. -/
theorem user_callback_suppression_witness :
    ("my_criterion", CallbackKind.CriterionCallback) ∈
      assembled (effectiveStageConfig userCallbacksExp.config.stagesDict "train")
        [("my_criterion", CallbackKind.CriterionCallback),
         ("my_optimizer", CallbackKind.OptimizerCallback),
         ("my_scheduler", CallbackKind.SchedulerCallback)] ∧
    "_criterion" ∉
      (assembled (effectiveStageConfig userCallbacksExp.config.stagesDict "train")
        [("my_criterion", CallbackKind.CriterionCallback),
         ("my_optimizer", CallbackKind.OptimizerCallback),
         ("my_scheduler", CallbackKind.SchedulerCallback)]).map Prod.fst ∧
    userCallbacksExp.get_callbacks "train" =
      .ok (assembled (effectiveStageConfig userCallbacksExp.config.stagesDict "train")
        [("my_criterion", CallbackKind.CriterionCallback),
         ("my_optimizer", CallbackKind.OptimizerCallback),
         ("my_scheduler", CallbackKind.SchedulerCallback)]) := by
  have h := user_callback_suppression userCallbacksExp "train"
    (effectiveStageConfig userCallbacksExp.config.stagesDict "train")
    [("my_criterion", CallbackKind.CriterionCallback),
     ("my_optimizer", CallbackKind.OptimizerCallback),
     ("my_scheduler", CallbackKind.SchedulerCallback)]
    CallbackKind.CriterionCallback "my_criterion"
    (by rfl) rfl (by rfl) (by decide) (by rfl) (by decide) (by decide)
  exact ⟨h.2.1, h.2.2.1, h.1⟩

/-- The configuration refuting claim C1 as stated: criterion_params is set and
the user declares two callbacks of the criterion kind. -/
def dupUserConfig : Config :=
  { model_params := ⟨"SomeModel", []⟩,
    stagesDict := [("train", .stageCfg {}),
                   ("criterion_params", .paramsBlock ⟨"BCEWithLogitsLoss", []⟩),
                   ("callbacks_params", .callbacks
                     [("crit_a", ⟨"CriterionCallback", []⟩),
                      ("crit_b", ⟨"CriterionCallback", []⟩)])],
    args := [("logdir", .s "./logdir")] }

/-- The experiment built on the refuting configuration. -/
def dupUserExp : ConfigExperiment := ⟨testRegistries, dupUserConfig⟩

/-- The callback mapping returned on the refuting configuration. -/
def dupCallbacksResult : List (String × CallbackKind) :=
  [("_metrics", .MetricManagerCallback),
   ("_validation", .ValidationManagerCallback),
   ("_saver", .CheckpointCallback),
   ("_console", .ConsoleLogger),
   ("_tensorboard", .TensorboardLogger),
   ("_exception", .ExceptionCallback),
   ("crit_a", .CriterionCallback),
   ("crit_b", .CriterionCallback)]

/-- Counterexample to claim C1 as stated: on a stage configuration that sets
criterion_params and declares a user-named callback of the criterion kind, the
mapping returned by get_callbacks nevertheless contains two callbacks of the
conditional-default kind CriterionCallback, because the user declared that
kind twice and only the internally-keyed default is suppressed. -/
theorem user_callback_duplicate_kind_cex :
    (effectiveStageConfig dupUserConfig.stagesDict "train").criterion_params.isSome
      = true ∧
    resolveUserCallbacks testRegistries
      (effectiveStageConfig dupUserConfig.stagesDict "train").callbacks_params =
      .ok [("crit_a", .CriterionCallback), ("crit_b", .CriterionCallback)] ∧
    dupUserExp.get_callbacks "train" = .ok dupCallbacksResult ∧
    dupCallbacksResult.countP
      (fun nk => nk.2 == CallbackKind.CriterionCallback) = 2 :=
  ⟨rfl, rfl, rfl, rfl⟩

end Catalyst
